import Mathlib

/-!
# Verification of the taskito client-side realtime/auth core

Shallow embedding of the client-resilience core of the taskito repository:

* the Redux `taskSlice` reducers (`src/unnamed/part_004`);
* the Redux `authSlice` reducers (`src/frontend/lib/store/slices/auth.ts`);
* the WebSocket message dispatcher, connection registry, backoff and
  reconnect logic of `WebSocketService` (`src/frontend/services/authService.ts`);
* the axios response-error interceptor of `useAxiosClient`
  (`src/frontend/hooks/useAxiosClient.tsx`);
* the client-local effects of `AuthService.logout`
  (`src/frontend/services/authService.ts`).

JavaScript numbers standing for integer identifiers are modelled as `Int`;
timestamps and millisecond durations as `Nat`; JS `Map`s as association lists
with insert-replaces semantics; `undefined` as `Option.none`; thrown-and-caught
exceptions as `Except Unit`.
-/

namespace Taskito

/-! ## Data model: tasks (`src/unnamed/part_016`) -/

/-- The `TaskPriority` enum (`alta` / `media` / `baja`). -/
inductive TaskPriority where
  | alta
  | media
  | baja
deriving Repr, DecidableEq

/-- The `Comment` interface from `src/unnamed/part_016`. -/
structure Comment where
  id : Int
  task_id : Int
  author_id : Int
  content : String
  created_at : String
  updated_at : String
deriving Repr, DecidableEq

/-- The `Task` interface from `src/unnamed/part_016`. -/
structure Task where
  id : Int
  title : String
  description : String
  due_date : String
  priority : TaskPriority
  assigned_to : Int
  created_by : Int
  completed : Bool
  comments : List Comment
  created_at : String
  updated_at : String
deriving Repr, DecidableEq

/-! ## Reducer `taskSlice.reducers.updateTask` (`src/unnamed/part_004`, lines 78-84)

```js
updateTask: (state, action: PayloadAction<Task>) => {
  const task = action.payload;
  const taskIndex = state.tasks.findIndex((task) => task.id === task.id);
  if (taskIndex !== -1) {
    state.tasks[taskIndex] = task;
  }
},
```

Note the inner lambda parameter `task` shadows the outer `const task`
binding, so the predicate compares each element's `id` with itself.  The
embedding reproduces this shadowing faithfully. -/

/-- The `updateTask` case reducer of the task slice, on the `tasks` array. -/
def updateTask (tasks : List Task) (payload : Task) : List Task :=
  let task := payload
  match tasks.findIdx? (fun task => task.id == task.id) with
  | some taskIndex => tasks.set taskIndex task
  | none => tasks

/-- A concrete `Task` value with the given id and title, all other fields
defaulted; used for concrete evaluations. -/
def sampleTask (i : Int) (t : String) : Task :=
  { id := i, title := t, description := "", due_date := "",
    priority := TaskPriority.media, assigned_to := 0, created_by := 0,
    completed := false, comments := [], created_at := "", updated_at := "" }

/-! ## Data model: auth state (`src/frontend/lib/store/slices/auth.ts`) -/

/-- The `AuthState` interface (also the `setUser` payload shape). -/
structure AuthState where
  id : Int
  username : String
  email : String
  is_active : Bool
  role : String
  updated_at : String
  created_at : String
  csrfToken : String
deriving Repr, DecidableEq

/-- Reducer `authSlice.reducers.setUser`: copies the seven identity fields from the
payload into the state; the `csrfToken` field is not assigned. -/
def setUser (state : AuthState) (payload : AuthState) : AuthState :=
  { state with
    id := payload.id
    username := payload.username
    email := payload.email
    is_active := payload.is_active
    role := payload.role
    updated_at := payload.updated_at
    created_at := payload.created_at }

/-- Reducer `authSlice.reducers.setCsrfToken`. -/
def setCsrfToken (state : AuthState) (token : String) : AuthState :=
  { state with csrfToken := token }

/-! ## Client-local effects of `AuthService.logout`
(`src/frontend/services/authService.ts`, lines 197-239)

Before its network call, `logout`:
1. sets `sessionStorage["logoutInProgressAt"] = Date.now()`;
2. removes `localStorage["csrfToken"]`;
3. dispatches `setUser` with an all-empty payload (`Role.USER = "user"`,
   `csrfToken: ""`). -/

/-- The client-local storage touched by `logout` and the interceptors. -/
structure ClientLocalState where
  auth : AuthState
  localStorageCsrf : Option String
  sessionLogoutAt : Option Nat
deriving Repr, DecidableEq

/-- The payload `logout` passes to `setUser`. -/
def logoutUserPayload : AuthState :=
  { id := 0, username := "", email := "", role := "user", is_active := false,
    updated_at := "", created_at := "", csrfToken := "" }

/-- The local (non-network) state mutations performed by `AuthService.logout`,
in source order, at time `now`. -/
def logoutLocalEffects (now : Nat) (s : ClientLocalState) : ClientLocalState :=
  { s with
    sessionLogoutAt := some now
    localStorageCsrf := none
    auth := setUser s.auth logoutUserPayload }

/-! ## JSON values and JavaScript member access

`Json` models the values `JSON.parse` can produce.  `Option Json` models a
possibly-`undefined` JS value (`none` = `undefined`). -/

inductive Json where
  | null
  | bool (b : Bool)
  | num (n : Int)
  | str (s : String)
  | arr (elems : List Json)
  | obj (fields : List (String × Json))
deriving Repr

/-- First-match lookup of a key in a JSON object's field list. -/
def lookupField : List (String × Json) → String → Option Json
  | [], _ => none
  | (k, v) :: rest, key => if k = key then some v else lookupField rest key

/-- JS member access `x.k` on a defined value: throws (`TypeError`) when `x`
is `null`, looks the key up when `x` is an object, and yields `undefined` on
every other value. -/
def member : Json → String → Except Unit (Option Json)
  | Json.null, _ => Except.error ()
  | Json.obj fields, key => Except.ok (lookupField fields key)
  | _, _ => Except.ok none

/-- JS member access `x.k` where `x` itself may be `undefined` (throws). -/
def memberOpt : Option Json → String → Except Unit (Option Json)
  | none, _ => Except.error ()
  | some j, key => member j key

/-- JS truthiness of a possibly-undefined value. -/
def truthy : Option Json → Bool
  | none => false
  | some Json.null => false
  | some (Json.bool b) => b
  | some (Json.num n) => !(n == 0)
  | some (Json.str s) => !(s == "")
  | some (Json.arr _) => true
  | some (Json.obj _) => true

/-- Is a value nullish (`null` or `undefined`), as tested by `??`. -/
def nullish : Option Json → Bool
  | none => true
  | some Json.null => true
  | _ => false

/-! ## The Message Dispatcher: `WebSocketService.handleMessage`
(`src/frontend/services/authService.ts`, lines 442-507)

The store dispatches the handler can perform are reified as `Action`s; the
logging `fetch` calls and `console` output are pure observations and are
omitted.  The `try { ... } catch { ... }` body is modelled in `Except Unit`
with the catch applied at the top level. -/

/-- A store dispatch performed by the message handler. -/
inductive Action where
  | addTask (payload : Option Json)
  | updateTask (payload : Option Json)
  | deleteTask (id : Int)
  | addComment (taskId : Int) (comment : Json)
deriving Repr

/-- The statement `const actorId = (msg.meta && (msg.meta.actor_id ?? msg.meta.user_id))`. -/
def actorIdOf (msg : Json) : Except Unit (Option Json) :=
  match member msg "meta" with
  | Except.error e => Except.error e
  | Except.ok metaV =>
    if truthy metaV then
      match memberOpt metaV "actor_id" with
      | Except.error e => Except.error e
      | Except.ok a =>
        if nullish a then memberOpt metaV "user_id" else Except.ok a
    else
      Except.ok metaV

/-- The self-origin suppression test:
`typeof actorId === "number" && typeof this.currentUserId === "number" &&
actorId === this.currentUserId`. -/
def suppressTest : Option Json → Option Int → Bool
  | some (Json.num n), some m => n == m
  | _, _ => false

/-- Evaluate the actor id, then the suppression test (the first statements of
the `try` block). -/
def suppressed (currentUserId : Option Int) (msg : Json) : Except Unit Bool :=
  match actorIdOf msg with
  | Except.error e => Except.error e
  | Except.ok actorId => Except.ok (suppressTest actorId currentUserId)

/-- The statement `const id = typeof msg.data === "number" ? msg.data : msg.data?.id` for
the `(task, deleted)` branch. -/
def taskDeletedId (dataV : Option Json) : Except Unit (Option Json) :=
  match dataV with
  | some (Json.num n) => Except.ok (some (Json.num n))
  | none => Except.ok none
  | some Json.null => Except.ok none
  | some j => member j "id"

/-- The `(comment, created)` branch: resolve
`c.task_id ?? c.taskId ?? c.task?.id` and dispatch `addComment` when it is a
number. -/
def commentCreatedDispatch (dataV : Option Json) : Except Unit (List Action) :=
  match memberOpt dataV "task_id" with
  | Except.error e => Except.error e
  | Except.ok t1 =>
    let step : Except Unit (Option Json) :=
      if nullish t1 then
        match memberOpt dataV "taskId" with
        | Except.error e => Except.error e
        | Except.ok t2 =>
          if nullish t2 then
            match memberOpt dataV "task" with
            | Except.error e => Except.error e
            | Except.ok tv =>
              if nullish tv then Except.ok none else memberOpt tv "id"
          else Except.ok t2
      else Except.ok t1
    match step with
    | Except.error e => Except.error e
    | Except.ok taskIdV =>
      match taskIdV, dataV with
      | some (Json.num n), some c => Except.ok [Action.addComment n c]
      | _, _ => Except.ok []

/-- The `(type, event)` dispatch table of `handleMessage`. -/
def dispatchOf (msg : Json) : Except Unit (List Action) :=
  match member msg "type" with
  | Except.error e => Except.error e
  | Except.ok (some (Json.str ty)) =>
    if ty = "task" then
      match member msg "event" with
      | Except.error e => Except.error e
      | Except.ok (some (Json.str ev)) =>
        if ev = "created" then
          match member msg "data" with
          | Except.error e => Except.error e
          | Except.ok dataV => Except.ok [Action.addTask dataV]
        else if ev = "updated" then
          match member msg "data" with
          | Except.error e => Except.error e
          | Except.ok dataV => Except.ok [Action.updateTask dataV]
        else if ev = "deleted" then
          match member msg "data" with
          | Except.error e => Except.error e
          | Except.ok dataV =>
            match taskDeletedId dataV with
            | Except.error e => Except.error e
            | Except.ok (some (Json.num n)) => Except.ok [Action.deleteTask n]
            | Except.ok _ => Except.ok []
        else Except.ok []
      | Except.ok _ => Except.ok []
    else if ty = "comment" then
      match member msg "event" with
      | Except.error e => Except.error e
      | Except.ok (some (Json.str ev)) =>
        if ev = "created" then
          match member msg "data" with
          | Except.error e => Except.error e
          | Except.ok dataV => commentCreatedDispatch dataV
        else Except.ok []
      | Except.ok _ => Except.ok []
    else Except.ok []
  | Except.ok _ => Except.ok []

/-- The body of the `try` block of `handleMessage`, after a successful parse. -/
def handleBody (currentUserId : Option Int) (msg : Json) :
    Except Unit (List Action) :=
  match suppressed currentUserId msg with
  | Except.error e => Except.error e
  | Except.ok true => Except.ok []
  | Except.ok false => dispatchOf msg

/-- Method `WebSocketService.handleMessage`: `frame = none` models a payload on which
`JSON.parse` throws; any exception in the body is caught and yields no
dispatches.  `dispatchReady` models whether `initDispatch` has been called. -/
def handleMessage (currentUserId : Option Int) (dispatchReady : Bool)
    (frame : Option Json) : List Action :=
  if dispatchReady then
    match frame with
    | none => []
    | some msg =>
      match handleBody currentUserId msg with
      | Except.ok actions => actions
      | Except.error _ => []
  else []

/-- Does a parsed message carry one of the `(type, event)` string pairs the
dispatcher recognizes (`task`×`created|updated|deleted`, `comment`×`created`)?
-/
def hasRecognizedPair (msg : Json) : Bool :=
  match msg with
  | Json.obj fields =>
    match lookupField fields "type", lookupField fields "event" with
    | some (Json.str ty), some (Json.str ev) =>
      (ty == "task" && (ev == "created" || ev == "updated" || ev == "deleted"))
        || (ty == "comment" && ev == "created")
    | _, _ => false
  | _ => false

/-! ## The Request Coordinator: `useAxiosClient`'s response-error interceptor
(`src/frontend/hooks/useAxiosClient.tsx`, lines 109-150, the variant with the
logout guard)

```js
async (error) => {
  const originalRequest = error.config;
  if (error.response?.status === 401 && !originalRequest._retry) {
    originalRequest._retry = true;
    try {
      const url = originalRequest?.url || "";
      const isAuthOrRefresh = url.includes("/auth/login") ||
        url.includes("/auth/refresh") || url.includes("/auth/logout");
      let logoutGuard = false;
      ... // sessionStorage["logoutInProgressAt"], 7000 ms window
      if (!isAuthOrRefresh && !logoutGuard) {
        const refreshResponse = await axiosClient.post("/auth/refresh");
      }
      return axiosClient(originalRequest);
    } catch (refreshError) {
      window.location.href = "/";
      return Promise.reject(refreshError);
    }
  }
  return Promise.reject(error);
}
```

The network is an oracle (`InterceptorEnv`): whether the refresh call
succeeds, and the outcome of re-issuing the original request.  Note that
`return axiosClient(originalRequest)` is not awaited, so a rejection of the
retried request is *not* caught by the `catch` block; the model reflects
this by passing `retryOutcome` through unchanged. -/

/-- JS `String.prototype.includes`. -/
def strIncludes (s pat : String) : Bool :=
  decide (pat.toList <:+: s.toList)

/-- Axios request config: the url plus the `_retry` marker property. -/
structure ReqConfig where
  url : String
  retryFlag : Bool
deriving Repr, DecidableEq

/-- The rejected value entering the response-error interceptor:
`error.response?.status` (`none` when there is no response) and
`error.config`; `errId` identifies the error object itself. -/
structure HttpError where
  status : Option Nat
  config : ReqConfig
  errId : Nat
deriving Repr, DecidableEq

/-- A settled promise outcome as observed by the caller. -/
inductive Outcome where
  | success (respId : Nat)
  | failure (errId : Nat)
deriving Repr, DecidableEq

/-- The environment one interceptor run executes against: the clock, the
`sessionStorage` logout timestamp, whether `POST /auth/refresh` succeeds (and
the identity of its rejection when it fails), and the outcome of re-issuing
the original request. -/
structure InterceptorEnv where
  now : Nat
  logoutAt : Option Nat
  refreshOk : Bool
  refreshErrId : Nat
  retryOutcome : Outcome
deriving Repr, DecidableEq

/-- Observable result of one run of the error interceptor: the outcome the
caller sees, how many refresh calls, original-request re-issues and
`window.location` navigations were performed, the `_retry` flag afterwards,
and the `sessionStorage` logout timestamp afterwards. -/
structure InterceptorResult where
  outcome : Outcome
  refreshCalls : Nat
  retryCalls : Nat
  navCalls : Nat
  retryFlagAfter : Bool
  logoutAtAfter : Option Nat
deriving Repr, DecidableEq

/-- The check `url.includes("/auth/login") || url.includes("/auth/refresh") ||
url.includes("/auth/logout")`. -/
def isAuthOrRefresh (url : String) : Bool :=
  strIncludes url "/auth/login" || strIncludes url "/auth/refresh" ||
    strIncludes url "/auth/logout"

/-- The logout-guard check: active iff `sessionStorage["logoutInProgressAt"]`
holds a timestamp less than 7000 ms old; an expired entry is removed.  Returns
the guard value and the storage content afterwards.  (JS computes
`Date.now() - ts < 7000` in signed arithmetic; for `ts > now` the difference
is negative, hence within the window, which agrees with truncated `Nat`
subtraction.) -/
def logoutGuard (now : Nat) (logoutAt : Option Nat) : Bool × Option Nat :=
  match logoutAt with
  | none => (false, none)
  | some ts => if now - ts < 7000 then (true, some ts) else (false, none)

/-- The response-error interceptor of `useAxiosClient`. -/
def onResponseError (env : InterceptorEnv) (e : HttpError) : InterceptorResult :=
  if e.status = some 401 ∧ e.config.retryFlag = false then
    let g := logoutGuard env.now env.logoutAt
    if isAuthOrRefresh e.config.url = false ∧ g.1 = false then
      if env.refreshOk then
        { outcome := env.retryOutcome, refreshCalls := 1, retryCalls := 1,
          navCalls := 0, retryFlagAfter := true, logoutAtAfter := g.2 }
      else
        { outcome := Outcome.failure env.refreshErrId, refreshCalls := 1,
          retryCalls := 0, navCalls := 1, retryFlagAfter := true,
          logoutAtAfter := g.2 }
    else
      { outcome := env.retryOutcome, refreshCalls := 0, retryCalls := 1,
        navCalls := 0, retryFlagAfter := true, logoutAtAfter := g.2 }
  else
    { outcome := Outcome.failure e.errId, refreshCalls := 0, retryCalls := 0,
      navCalls := 0, retryFlagAfter := e.config.retryFlag,
      logoutAtAfter := env.logoutAt }

/-- A 401 on `GET /tasks` that has not yet retried, racing a 1-second-old
logout; the re-issued request would resolve successfully. -/
def logoutRaceEnv : InterceptorEnv :=
  { now := 1000, logoutAt := some 0, refreshOk := true, refreshErrId := 99,
    retryOutcome := Outcome.success 7 }

/-- The original 401 error for the logout-race scenario. -/
def logoutRaceErr : HttpError :=
  { status := some 401, config := { url := "/tasks", retryFlag := false },
    errId := 3 }

/-- A 401 on `GET /tasks` with no logout in progress; refresh succeeds and the
re-issued request resolves successfully. -/
def refreshHappyEnv : InterceptorEnv :=
  { now := 50000, logoutAt := none, refreshOk := true, refreshErrId := 99,
    retryOutcome := Outcome.success 7 }

/-- A 401 on `GET /tasks` with no logout in progress, but the refresh call
itself is rejected. -/
def refreshFailEnv : InterceptorEnv :=
  { now := 50000, logoutAt := none, refreshOk := false, refreshErrId := 99,
    retryOutcome := Outcome.success 7 }

/-- The original 401 error for the refresh scenarios. -/
def refreshErr : HttpError :=
  { status := some 401, config := { url := "/tasks", retryFlag := false },
    errId := 3 }

/-! ## The Channel Registry and Connection: `WebSocketService`
(`src/frontend/services/authService.ts`, lines 296-439)

Operational model of the single-threaded event loop.  The service's four
`Map`s are association lists; `WebSocket` objects and `setTimeout` /
`setInterval` handles are recorded in a world so that handlers attached to a
socket keep firing even after the service drops its map entry (the `onopen` /
`onclose` closures capture only the channel name).  Environment steps
(`fireOpen`, `fireClose`, `fireReconnectTimer`) model the runtime delivering
an event or an expired timer; the outbound `hello` / `ping` frames and the
logging `fetch` calls are pure observations and are omitted. -/

/-- The `WebSocket.readyState` value, reduced to the states the code distinguishes. -/
inductive SockState where
  | connecting
  | opened
  | closed
deriving Repr, DecidableEq

/-- A `WebSocket` object constructed by `connect`.  `closeDelivered` records
whether its `onclose` callback has run (the runtime fires it exactly once). -/
structure Socket where
  id : Nat
  channel : String
  state : SockState
  closeDelivered : Bool
deriving Repr, DecidableEq

/-- A `setTimeout` handle created by `scheduleReconnect`. -/
structure ReconnectTimer where
  id : Nat
  channel : String
  delay : Nat
  cancelled : Bool
  fired : Bool
deriving Repr, DecidableEq

/-- JS `Map.get` on an association-list model. -/
def alistGet {α : Type} : List (String × α) → String → Option α
  | [], _ => none
  | (k, v) :: rest, key => if k = key then some v else alistGet rest key

/-- JS `Map.set` (insert-or-replace). -/
def alistSet {α : Type} (m : List (String × α)) (key : String) (v : α) :
    List (String × α) :=
  (key, v) :: m.filter (fun p => !(p.1 == key))

/-- JS `Map.delete`. -/
def alistDelete {α : Type} (m : List (String × α)) (key : String) :
    List (String × α) :=
  m.filter (fun p => !(p.1 == key))

/-- The service's instance fields (`sockets`, `reconnectTimers`,
`heartbeatTimers`, `backoffMap`, `maxBackoffMs`); maps hold object/handle
ids. -/
structure WSService where
  sockets : List (String × Nat)
  reconnectTimers : List (String × Nat)
  heartbeatTimers : List (String × Nat)
  backoffMap : List (String × Nat)
  maxBackoffMs : Nat
deriving Repr, DecidableEq

/-- The service plus the runtime objects it created: every `WebSocket` ever
constructed, every reconnect `setTimeout`, and the live `setInterval`
heartbeat ids. -/
structure WSWorld where
  svc : WSService
  objs : List Socket
  timers : List ReconnectTimer
  intervals : List Nat
  nextSocketId : Nat
  nextTimerId : Nat
  nextIntervalId : Nat
deriving Repr, DecidableEq

/-- The fresh service (`new WebSocketService()`: base path and heartbeat
interval omitted, `maxBackoffMs = 10000`). -/
def initWorld : WSWorld :=
  { svc := { sockets := [], reconnectTimers := [], heartbeatTimers := [],
             backoffMap := [], maxBackoffMs := 10000 },
    objs := [], timers := [], intervals := [],
    nextSocketId := 0, nextTimerId := 0, nextIntervalId := 0 }

/-- Resolve a socket id to its object. -/
def getSock (w : WSWorld) (sid : Nat) : Option Socket :=
  w.objs.find? (fun s => s.id == sid)

/-- Method `WebSocketService.clearHeartbeat(channel)`. -/
def clearHeartbeat (channel : String) (w : WSWorld) : WSWorld :=
  match alistGet w.svc.heartbeatTimers channel with
  | some hb =>
    { w with
      intervals := w.intervals.filter (fun i => !(i == hb)),
      svc := { w.svc with
        heartbeatTimers := alistDelete w.svc.heartbeatTimers channel } }
  | none => w

/-- Method `WebSocketService.startHeartbeat(channel)`: clears any previous interval,
then registers a fresh one when the channel has a socket in the map. -/
def startHeartbeat (channel : String) (w : WSWorld) : WSWorld :=
  let w1 := clearHeartbeat channel w
  match alistGet w1.svc.sockets channel with
  | none => w1
  | some _ =>
    { w1 with
      intervals := w1.nextIntervalId :: w1.intervals,
      nextIntervalId := w1.nextIntervalId + 1,
      svc := { w1.svc with
        heartbeatTimers :=
          alistSet w1.svc.heartbeatTimers channel w1.nextIntervalId } }

/-- Method `WebSocketService.scheduleReconnect(channel)`: doubles the stored backoff
(capped), but arms the `setTimeout` with the *current* delay. -/
def scheduleReconnect (channel : String) (w : WSWorld) : WSWorld :=
  let current := (alistGet w.svc.backoffMap channel).getD 1000
  let next := min (current * 2) w.svc.maxBackoffMs
  let timer : ReconnectTimer :=
    { id := w.nextTimerId, channel := channel, delay := current,
      cancelled := false, fired := false }
  { w with
    timers := w.timers ++ [timer],
    nextTimerId := w.nextTimerId + 1,
    svc := { w.svc with
      backoffMap := alistSet w.svc.backoffMap channel next,
      reconnectTimers := alistSet w.svc.reconnectTimers channel timer.id } }

/-- Method `WebSocketService.connect(channel)`: a no-op only when the mapped socket
is currently `OPEN`; otherwise constructs a new `WebSocket` (with its
handlers) and overwrites the map entry. -/
def wsConnect (channel : String) (w : WSWorld) : WSWorld :=
  let cur := (alistGet w.svc.sockets channel).bind (getSock w)
  if cur.map (fun s => s.state) = some SockState.opened then w
  else
    let sock : Socket :=
      { id := w.nextSocketId, channel := channel,
        state := SockState.connecting, closeDelivered := false }
    { w with
      objs := w.objs ++ [sock],
      nextSocketId := w.nextSocketId + 1,
      svc := { w.svc with sockets := alistSet w.svc.sockets channel sock.id } }

/-- The call `sock.close()`: moves a not-yet-closed socket to the closed state; its
`onclose` event is delivered later by the runtime (`fireClose`). -/
def closeSocket (sid : Nat) (w : WSWorld) : WSWorld :=
  { w with
    objs := w.objs.map (fun s : Socket =>
      if s.id = sid ∧ s.state ≠ SockState.closed then
        { s with state := SockState.closed }
      else s) }

/-- Method `WebSocketService.disconnect(channel)`: closes the mapped socket and drops
the map entry, cancels the pending reconnect `setTimeout` if any, and clears
the heartbeat. -/
def wsDisconnect (channel : String) (w : WSWorld) : WSWorld :=
  let w1 :=
    match alistGet w.svc.sockets channel with
    | some sid =>
      let wc := closeSocket sid w
      { wc with svc := { wc.svc with
          sockets := alistDelete wc.svc.sockets channel } }
    | none => w
  let w2 :=
    match alistGet w1.svc.reconnectTimers channel with
    | some tid =>
      { w1 with
        timers := w1.timers.map (fun t : ReconnectTimer =>
          if t.id = tid then { t with cancelled := true } else t),
        svc := { w1.svc with
          reconnectTimers := alistDelete w1.svc.reconnectTimers channel } }
    | none => w1
  clearHeartbeat channel w2

/-- Method `WebSocketService.isConnected(channel)`. -/
def wsIsConnected (channel : String) (w : WSWorld) : Bool :=
  ((alistGet w.svc.sockets channel).bind (getSock w)).map
    (fun s => s.state) == some SockState.opened

/-- Runtime step: a connecting socket opens and its `onopen` handler runs —
`this.backoffMap.set(channel, 1000); this.startHeartbeat(channel)` (the
`hello` frame is outbound only). -/
def fireOpen (sid : Nat) (w : WSWorld) : WSWorld :=
  match getSock w sid with
  | some s =>
    if s.state = SockState.connecting then
      let w1 := { w with objs := w.objs.map (fun x : Socket =>
        if x.id = sid then { x with state := SockState.opened } else x) }
      let w2 := { w1 with svc := { w1.svc with
        backoffMap := alistSet w1.svc.backoffMap s.channel 1000 } }
      startHeartbeat s.channel w2
    else w
  | none => w

/-- Runtime step: the close event of a socket is delivered (once) and its
`onclose` handler runs — `this.clearHeartbeat(channel);
this.scheduleReconnect(channel)`.  This happens both for transport failures
and for sockets closed via `close()`; the handler stays attached regardless
of the service's map contents. -/
def fireClose (sid : Nat) (w : WSWorld) : WSWorld :=
  match getSock w sid with
  | some s =>
    if s.closeDelivered then w
    else
      let w1 := { w with objs := w.objs.map (fun x : Socket =>
        if x.id = sid then
          { x with state := SockState.closed, closeDelivered := true }
        else x) }
      let w2 := clearHeartbeat s.channel w1
      scheduleReconnect s.channel w2
  | none => w

/-- Runtime step: an armed, uncancelled reconnect `setTimeout` expires and its
callback `this.connect(channel)` runs. -/
def fireReconnectTimer (tid : Nat) (w : WSWorld) : WSWorld :=
  match w.timers.find? (fun t => t.id == tid) with
  | some t =>
    if t.cancelled || t.fired then w
    else
      let w1 := { w with timers := w.timers.map (fun x : ReconnectTimer =>
        if x.id = tid then { x with fired := true } else x) }
      wsConnect t.channel w1
  | none => w

/-- The live (constructed and not closed) underlying stream objects for a
channel. -/
def liveSockets (channel : String) (w : WSWorld) : List Socket :=
  w.objs.filter (fun s =>
    s.channel == channel && !(s.state == SockState.closed))

/-- The world after: connect, the socket opens, explicit disconnect, then the
runtime delivers the closed socket's close event. -/
def disconnectTrace : WSWorld :=
  fireClose 0 (wsDisconnect "tasks" (fireOpen 0 (wsConnect "tasks" initWorld)))

/-- The delays of the reconnect timers armed by `n` consecutive failed
connection attempts with no intervening successful open (each failure's close
event invokes `scheduleReconnect`); the delay is read off the `setTimeout`
actually created. -/
def reconnectDelays (channel : String) (w : WSWorld) : Nat → List Nat
  | 0 => []
  | n + 1 =>
    let w1 := scheduleReconnect channel w
    (match w1.timers.getLast? with
     | some t => t.delay
     | none => 0) :: reconnectDelays channel w1 n

end Taskito

namespace Taskito

/-! ## Theorems for claims C1 and C10 -/

/-- C1: the claim states that a `(task, updated)` envelope replaces exactly the
entry whose identifier matches the payload and leaves the collection unchanged
when no identifier matches.  The `updateTask` reducer violates this: its
`findIndex` predicate compares each element's `id` with itself (the lambda
parameter shadows the payload binding), so on any non-empty collection it
replaces the first entry, matching identifier or not.  Concretely, a singleton
collection holding the task with id 2 is rewritten to hold the payload with
id 1. -/
theorem updateTask_replaces_nonmatching_entry :
    (sampleTask 2 "B").id ≠ (sampleTask 1 "A").id ∧
    updateTask [sampleTask 2 "B"] (sampleTask 1 "A") = [sampleTask 1 "A"] := by
  exact ⟨by decide, rfl⟩

/-- C10: `setUser` writes exactly the seven identity fields and leaves
`csrfToken` unchanged; hence `logout`'s optimistic `setUser` (empty payload)
does not clear the in-memory anti-forgery token, while the durable
localStorage copy is removed. -/
theorem setUser_preserves_csrfToken (s p : AuthState) (now : Nat)
    (c : ClientLocalState) :
    (setUser s p).csrfToken = s.csrfToken ∧
    (setUser s p).id = p.id ∧
    (setUser s p).username = p.username ∧
    (setUser s p).email = p.email ∧
    (setUser s p).is_active = p.is_active ∧
    (setUser s p).role = p.role ∧
    (setUser s p).updated_at = p.updated_at ∧
    (setUser s p).created_at = p.created_at ∧
    (logoutLocalEffects now c).auth.csrfToken = c.auth.csrfToken ∧
    (logoutLocalEffects now c).localStorageCsrf = none := by
  refine ⟨rfl, rfl, rfl, rfl, rfl, rfl, rfl, rfl, rfl, rfl⟩

/-! ## Dispatcher lemmas (shared helpers) -/

/-- Member access on a non-`null` value never throws. -/
lemma memberOpt_isOk_of_truthy (v : Option Json) (k : String)
    (h : truthy v = true) : ∃ r, memberOpt v k = Except.ok r := by
  match v with
  | none => simp [truthy] at h
  | some Json.null => simp [truthy] at h
  | some (Json.bool b) => exact ⟨none, rfl⟩
  | some (Json.num n) => exact ⟨none, rfl⟩
  | some (Json.str s) => exact ⟨none, rfl⟩
  | some (Json.arr xs) => exact ⟨none, rfl⟩
  | some (Json.obj fs) => exact ⟨lookupField fs k, rfl⟩

/-- On an object message, the actor-id extraction never throws. -/
lemma actorIdOf_obj_isOk (fields : List (String × Json)) :
    ∃ r, actorIdOf (Json.obj fields) = Except.ok r := by
  unfold actorIdOf
  simp only [member]
  cases ht : truthy (lookupField fields "meta") with
  | false => simp [ht]
  | true =>
    obtain ⟨a, ha⟩ := memberOpt_isOk_of_truthy _ "actor_id" ht
    cases hn : nullish a with
    | false => exact ⟨a, by simp [ht, ha, hn]⟩
    | true =>
      obtain ⟨u, hu⟩ := memberOpt_isOk_of_truthy _ "user_id" ht
      exact ⟨u, by simp [ht, ha, hn, hu]⟩

/-- On an object message, the suppression check never throws. -/
lemma suppressed_obj_isOk (uid : Option Int) (fields : List (String × Json)) :
    ∃ b, suppressed uid (Json.obj fields) = Except.ok b := by
  obtain ⟨r, hr⟩ := actorIdOf_obj_isOk fields
  exact ⟨suppressTest r uid, by unfold suppressed; rw [hr]⟩

/-- An object message without a recognized `(type, event)` pair dispatches
nothing. -/
lemma dispatchOf_unrecognized (fields : List (String × Json))
    (h : hasRecognizedPair (Json.obj fields) = false) :
    dispatchOf (Json.obj fields) = Except.ok [] := by
  unfold hasRecognizedPair at h
  unfold dispatchOf
  simp only [member]
  rcases hty : lookupField fields "type" with _ | ty
  · simp
  · cases ty with
    | str sty =>
      simp only [hty] at h
      by_cases h1 : sty = "task"
      · subst h1
        simp only
        rcases hev : lookupField fields "event" with _ | ev
        · simp [hev]
        · cases ev with
          | str sev =>
            simp only [hev, beq_self_eq_true, Bool.true_and, Bool.or_eq_false_iff,
              Bool.and_eq_false_iff] at h
            have h2 : ¬sev = "created" := by
              intro hc; subst hc; simp at h
            have h3 : ¬sev = "updated" := by
              intro hc; subst hc; simp at h
            have h4 : ¬sev = "deleted" := by
              intro hc; subst hc; simp at h
            simp [hev, h2, h3, h4]
          | null => simp [hev]
          | bool b => simp [hev]
          | num n => simp [hev]
          | arr xs => simp [hev]
          | obj fs => simp [hev]
      · by_cases h5 : sty = "comment"
        · subst h5
          simp only [h1]
          rcases hev : lookupField fields "event" with _ | ev
          · simp [hev]
          · cases ev with
            | str sev =>
              simp only [hev] at h
              have h2 : ¬sev = "created" := by
                intro hc; subst hc; simp at h
              simp [hev, h2, h1]
            | null => simp [hev, h1]
            | bool b => simp [hev, h1]
            | num n => simp [hev, h1]
            | arr xs => simp [hev, h1]
            | obj fs => simp [hev, h1]
        · simp [h1, h5]
    | null => simp
    | bool b => simp
    | num n => simp
    | arr xs => simp
    | obj fs => simp

/-- A message without a recognized `(type, event)` pair either dispatches
nothing or throws into the catch. -/
lemma handleBody_unrecognized (uid : Option Int) (j : Json)
    (h : hasRecognizedPair j = false) :
    handleBody uid j = Except.ok [] ∨ handleBody uid j = Except.error () := by
  cases j with
  | null => right; rfl
  | bool b => left; cases uid <;> rfl
  | num n => left; cases uid <;> rfl
  | str s => left; cases uid <;> rfl
  | arr xs => left; cases uid <;> rfl
  | obj fields =>
    left
    obtain ⟨b, hb⟩ := suppressed_obj_isOk uid fields
    unfold handleBody
    rw [hb]
    cases b
    · exact dispatchOf_unrecognized fields h
    · rfl

/-! ## Theorems for claims C8 and C9 -/

/-- C8: a raw inbound frame whose payload is not parseable as JSON
(`frame = none`), or parses to a structure lacking a recognized `type`/`event`
pair, produces zero store dispatches; the handler's `try`/`catch` means no
exception escapes to the caller (the embedding is a total function whose only
error path is the modelled catch, which yields the empty dispatch list). -/
theorem handleMessage_malformed_is_silent (uid : Option Int) (ready : Bool)
    (j : Json) (h : hasRecognizedPair j = false) :
    handleMessage uid ready none = [] ∧ handleMessage uid ready (some j) = [] := by
  constructor
  · cases ready <;> rfl
  · cases ready with
    | false => rfl
    | true =>
      show (match handleBody uid j with
            | Except.ok actions => actions
            | Except.error _ => []) = []
      rcases handleBody_unrecognized uid j h with h' | h' <;> rw [h']

/-- Witness for C8 at a concrete malformed frame: an object with a `type` but
no `event` field. -/
theorem handleMessage_malformed_is_silent_witness :
    handleMessage (some 5) true none = [] ∧
    handleMessage (some 5) true (some (Json.obj [("type", Json.str "task")])) = [] :=
  handleMessage_malformed_is_silent (some 5) true
    (Json.obj [("type", Json.str "task")]) rfl

/-- C9: an envelope whose `meta.actor_id` equals the currently set numeric
current-actor identifier is discarded without any store dispatch. -/
theorem handleMessage_self_origin_suppressed (uid : Int) (ready : Bool)
    (fields metaFs : List (String × Json))
    (hmeta : lookupField fields "meta" = some (Json.obj metaFs))
    (hactor : lookupField metaFs "actor_id" = some (Json.num uid)) :
    handleMessage (some uid) ready (some (Json.obj fields)) = [] := by
  have hs : suppressed (some uid) (Json.obj fields) = Except.ok true := by
    unfold suppressed actorIdOf
    simp [member, hmeta, memberOpt, truthy, hactor, nullish, suppressTest]
  have hb : handleBody (some uid) (Json.obj fields) = Except.ok [] := by
    unfold handleBody
    rw [hs]
  cases ready with
  | false => rfl
  | true =>
    show (match handleBody (some uid) (Json.obj fields) with
          | Except.ok actions => actions
          | Except.error _ => []) = []
    rw [hb]

/-- Witness for C9 at a concrete self-originated `(task, created)` envelope. -/
theorem handleMessage_self_origin_suppressed_witness :
    handleMessage (some 5) true
      (some (Json.obj
        [("type", Json.str "task"), ("event", Json.str "created"),
         ("data", Json.obj [("id", Json.num 1)]),
         ("meta", Json.obj [("actor_id", Json.num 5)])])) = [] :=
  handleMessage_self_origin_suppressed 5 true
    [("type", Json.str "task"), ("event", Json.str "created"),
     ("data", Json.obj [("id", Json.num 1)]),
     ("meta", Json.obj [("actor_id", Json.num 5)])]
    [("actor_id", Json.num 5)] rfl rfl

/-! ## Theorems for claims C4, C5 and C6 -/

/-- C4 counterexample: with an active logout window the interceptor indeed
makes no refresh call, but the original failure does *not* propagate — the
code still executes `return axiosClient(originalRequest)`, so the caller sees
the re-issued request's outcome (here a success), not the original error. -/
theorem interceptor_logout_window_counterexample :
    (onResponseError logoutRaceEnv logoutRaceErr).refreshCalls = 0 ∧
    (onResponseError logoutRaceEnv logoutRaceErr).outcome
      ≠ Outcome.failure logoutRaceErr.errId ∧
    (onResponseError logoutRaceEnv logoutRaceErr).retryCalls = 1 := by
  decide

/-- C4 amended: for every 401 with the retry flag still unset, while the
logout window is active, no refresh call is made and the original request is
re-issued exactly once without renewal; the caller sees the re-issued
request's outcome rather than the original failure. -/
theorem interceptor_logout_window_skips_refresh (env : InterceptorEnv)
    (e : HttpError) (h401 : e.status = some 401)
    (hflag : e.config.retryFlag = false)
    (hguard : (logoutGuard env.now env.logoutAt).1 = true) :
    (onResponseError env e).refreshCalls = 0 ∧
    (onResponseError env e).retryCalls = 1 ∧
    (onResponseError env e).outcome = env.retryOutcome := by
  simp [onResponseError, h401, hflag, hguard]

/-- Witness for the amended C4 at the concrete logout-race scenario. -/
theorem interceptor_logout_window_skips_refresh_witness :
    (onResponseError logoutRaceEnv logoutRaceErr).refreshCalls = 0 ∧
    (onResponseError logoutRaceEnv logoutRaceErr).retryCalls = 1 ∧
    (onResponseError logoutRaceEnv logoutRaceErr).outcome
      = logoutRaceEnv.retryOutcome :=
  interceptor_logout_window_skips_refresh logoutRaceEnv logoutRaceErr
    rfl rfl (by decide)

/-- C5: on a single 401 for a non-auth endpoint with no active logout window,
when the refresh call succeeds and the re-issued request succeeds, the caller
sees that final success, exactly one refresh call and exactly one re-issue are
made, and the retry flag transitions to `true`; moreover any error whose
request already carries the retry flag causes zero refresh calls and zero
re-issues (no second renewal attempt for the same request). -/
theorem interceptor_refresh_once_then_success (env : InterceptorEnv)
    (e : HttpError) (v : Nat) (h401 : e.status = some 401)
    (hflag : e.config.retryFlag = false)
    (hurl : isAuthOrRefresh e.config.url = false)
    (hguard : (logoutGuard env.now env.logoutAt).1 = false)
    (hrefresh : env.refreshOk = true)
    (hretry : env.retryOutcome = Outcome.success v) :
    (onResponseError env e).outcome = Outcome.success v ∧
    (onResponseError env e).refreshCalls = 1 ∧
    (onResponseError env e).retryCalls = 1 ∧
    (onResponseError env e).retryFlagAfter = true ∧
    (∀ (env' : InterceptorEnv) (e' : HttpError), e'.config.retryFlag = true →
      (onResponseError env' e').refreshCalls = 0 ∧
      (onResponseError env' e').retryCalls = 0) := by
  refine ⟨?_, ?_, ?_, ?_, ?_⟩
  · simp [onResponseError, h401, hflag, hurl, hguard, hrefresh, hretry]
  · simp [onResponseError, h401, hflag, hurl, hguard, hrefresh]
  · simp [onResponseError, h401, hflag, hurl, hguard, hrefresh]
  · simp [onResponseError, h401, hflag, hurl, hguard, hrefresh]
  · intro env' e' hflag'
    constructor <;> simp [onResponseError, hflag']

/-- Witness for C5 at the concrete happy-path scenario. -/
theorem interceptor_refresh_once_then_success_witness :
    (onResponseError refreshHappyEnv refreshErr).outcome = Outcome.success 7 ∧
    (onResponseError refreshHappyEnv refreshErr).refreshCalls = 1 ∧
    (onResponseError refreshHappyEnv refreshErr).retryCalls = 1 ∧
    (onResponseError refreshHappyEnv refreshErr).retryFlagAfter = true ∧
    (∀ (env' : InterceptorEnv) (e' : HttpError), e'.config.retryFlag = true →
      (onResponseError env' e').refreshCalls = 0 ∧
      (onResponseError env' e').retryCalls = 0) :=
  interceptor_refresh_once_then_success refreshHappyEnv refreshErr 7
    rfl rfl (by decide) rfl rfl rfl

/-- C6: on a 401 whose refresh call is itself rejected, the caller sees a
terminal failure (the refresh error is re-rejected) and exactly one hard
navigation to `/` is performed. -/
theorem interceptor_refresh_failure_navigates (env : InterceptorEnv)
    (e : HttpError) (h401 : e.status = some 401)
    (hflag : e.config.retryFlag = false)
    (hurl : isAuthOrRefresh e.config.url = false)
    (hguard : (logoutGuard env.now env.logoutAt).1 = false)
    (hrefresh : env.refreshOk = false) :
    (onResponseError env e).outcome = Outcome.failure env.refreshErrId ∧
    (onResponseError env e).navCalls = 1 ∧
    (onResponseError env e).refreshCalls = 1 ∧
    (onResponseError env e).retryCalls = 0 := by
  simp [onResponseError, h401, hflag, hurl, hguard, hrefresh]

/-- Witness for C6 at the concrete refresh-failure scenario. -/
theorem interceptor_refresh_failure_navigates_witness :
    (onResponseError refreshFailEnv refreshErr).outcome
      = Outcome.failure refreshFailEnv.refreshErrId ∧
    (onResponseError refreshFailEnv refreshErr).navCalls = 1 ∧
    (onResponseError refreshFailEnv refreshErr).refreshCalls = 1 ∧
    (onResponseError refreshFailEnv refreshErr).retryCalls = 0 :=
  interceptor_refresh_failure_navigates refreshFailEnv refreshErr
    rfl rfl (by decide) rfl rfl

/-! ## Theorems for claims C2 and C3 -/

/-- C2: the claim states that at most one live underlying stream exists per
channel name, in particular after two `connect` calls in succession.  The
guard in `connect` only short-circuits when the mapped socket's `readyState`
is `OPEN`; two `connect` calls while the first socket is still `CONNECTING`
(which is necessarily the case for two calls in succession on the
single-threaded event loop) construct two `WebSocket` objects, both live, the
first orphaned outside the map. -/
theorem connect_twice_duplicates_streams :
    (liveSockets "tasks" (wsConnect "tasks" (wsConnect "tasks" initWorld))).length = 2 ∧
    (wsConnect "tasks" (wsConnect "tasks" initWorld)).nextSocketId = 2 := by
  decide

/-- C3: the claim states that after an explicit `disconnect` no automatic
reconnect ever fires.  `disconnect` does cancel the pending reconnect and
heartbeat timers, but it leaves the socket's `onclose` handler attached; when
the runtime delivers the close event of the explicitly closed socket, the
handler calls `scheduleReconnect`, arming a fresh, uncancelled timer — and
firing that timer reconnects the channel (a second socket is constructed)
with no intervening `connect` call by the user. -/
theorem disconnect_then_reconnect_still_fires :
    disconnectTrace.timers =
      [{ id := 0, channel := "tasks", delay := 1000,
         cancelled := false, fired := false }] ∧
    disconnectTrace.svc.sockets = [] ∧
    (liveSockets "tasks" (fireReconnectTimer 0 disconnectTrace)).length = 1 ∧
    (fireReconnectTimer 0 disconnectTrace).nextSocketId = 2 := by
  decide

/-! ## Backoff lemmas (shared helpers) -/

/-- Getting a key right after `Map.set` of the same key. -/
lemma alistGet_alistSet_self {α : Type} (m : List (String × α)) (k : String)
    (v : α) : alistGet (alistSet m k v) k = some v := by
  simp [alistSet, alistGet]

/-- The `setTimeout` armed by `scheduleReconnect` carries the pre-doubling
("current") delay. -/
lemma scheduleReconnect_timers_getLast (channel : String) (w : WSWorld) :
    (scheduleReconnect channel w).timers.getLast? =
      some { id := w.nextTimerId, channel := channel,
             delay := (alistGet w.svc.backoffMap channel).getD 1000,
             cancelled := false, fired := false } := by
  simp [scheduleReconnect, List.getLast?_concat]

/-- After the call, `scheduleReconnect` has stored the doubled, capped backoff. -/
lemma scheduleReconnect_backoff (channel : String) (w : WSWorld) :
    alistGet (scheduleReconnect channel w).svc.backoffMap channel =
      some (min ((alistGet w.svc.backoffMap channel).getD 1000 * 2)
        w.svc.maxBackoffMs) := by
  simp [scheduleReconnect, alistGet_alistSet_self]

/-- The cap is unchanged by `scheduleReconnect`. -/
lemma scheduleReconnect_maxBackoff (channel : String) (w : WSWorld) :
    (scheduleReconnect channel w).svc.maxBackoffMs = w.svc.maxBackoffMs := rfl

/-- The backoff map is untouched by `clearHeartbeat`. -/
lemma clearHeartbeat_backoffMap (channel : String) (w : WSWorld) :
    (clearHeartbeat channel w).svc.backoffMap = w.svc.backoffMap := by
  unfold clearHeartbeat
  split <;> rfl

/-- The backoff map is untouched by `startHeartbeat`. -/
lemma startHeartbeat_backoffMap (channel : String) (w : WSWorld) :
    (startHeartbeat channel w).svc.backoffMap = w.svc.backoffMap := by
  cases h : alistGet (clearHeartbeat channel w).svc.sockets channel with
  | none => simp [startHeartbeat, h, clearHeartbeat_backoffMap]
  | some v => simp [startHeartbeat, h, clearHeartbeat_backoffMap]

/-- The `i`-th of `n` consecutive reconnect delays, starting from a backoff of
`min (1000 * 2 ^ k) 10000`. -/
lemma reconnectDelays_get? (channel : String) (n : Nat) :
    ∀ (w : WSWorld) (k i : Nat), i < n →
      w.svc.maxBackoffMs = 10000 →
      (alistGet w.svc.backoffMap channel).getD 1000 = min (1000 * 2 ^ k) 10000 →
      (reconnectDelays channel w n).get? i
        = some (min (1000 * 2 ^ (k + i)) 10000) := by
  induction n with
  | zero => intro w k i hi _ _; exact absurd hi (by omega)
  | succ n ih =>
    intro w k i hi hcap hb
    cases i with
    | zero =>
      simp only [reconnectDelays, scheduleReconnect_timers_getLast,
        List.get?_cons_zero, Nat.add_zero]
      rw [hb]
    | succ i' =>
      have hk : k + (i' + 1) = (k + 1) + i' := by omega
      rw [hk]
      simp only [reconnectDelays, List.get?_cons_succ]
      apply ih
      · omega
      · rw [scheduleReconnect_maxBackoff]; exact hcap
      · rw [scheduleReconnect_backoff, hb, hcap]
        simp only [Option.getD_some]
        rw [pow_succ]
        omega

/-! ## Theorem for claim C7 -/

/-- C7: starting from a backoff in base state (fresh channel, or just after a
successful open), the `N`-th scheduled reconnect delay over `N` consecutive
failed attempts equals `min (1000 * 2 ^ (N - 1)) 10000`; and a successful
open (`onopen`) resets the stored backoff to the base 1000 ms. -/
theorem reconnect_backoff_formula (channel : String) (w : WSWorld) (N : Nat)
    (hcap : w.svc.maxBackoffMs = 10000)
    (hbase : (alistGet w.svc.backoffMap channel).getD 1000 = 1000)
    (hN : 1 ≤ N) :
    (reconnectDelays channel w N).get? (N - 1)
      = some (min (1000 * 2 ^ (N - 1)) 10000) ∧
    (∀ (w' : WSWorld) (sid : Nat) (s : Socket), getSock w' sid = some s →
      s.state = SockState.connecting →
      alistGet (fireOpen sid w').svc.backoffMap s.channel = some 1000) := by
  constructor
  · have h0 : (alistGet w.svc.backoffMap channel).getD 1000
        = min (1000 * 2 ^ 0) 10000 := by
      rw [hbase]; norm_num
    have h := reconnectDelays_get? channel N w 0 (N - 1) (by omega) hcap h0
    simpa using h
  · intro w' sid s hget hstate
    unfold fireOpen
    rw [hget]
    simp [hstate, startHeartbeat_backoffMap, alistGet_alistSet_self]

/-- Witness for C7: the fifth delay from a fresh channel is the 10000 ms cap
(`min (1000 * 2 ^ 4) 10000`). -/
theorem reconnect_backoff_formula_witness :
    (reconnectDelays "tasks" initWorld 5).get? (5 - 1)
      = some (min (1000 * 2 ^ (5 - 1)) 10000) ∧
    (∀ (w' : WSWorld) (sid : Nat) (s : Socket), getSock w' sid = some s →
      s.state = SockState.connecting →
      alistGet (fireOpen sid w').svc.backoffMap s.channel = some 1000) :=
  reconnect_backoff_formula "tasks" initWorld 5 rfl rfl (by norm_num)

end Taskito
